import Mathlib

/-!
Shallow embedding of the unit composition and spawn system of
dark-arts-defens-ldjam55 (src/units/unit_types.rs), together with theorems
settling the specification claims about it.

Numeric conventions: the game's f32 fields (speeds, scales, coordinates) are
embedded as rationals; every literal appearing in the source is exactly
representable. Small unsigned integers (health, cost, frame counts, weights)
are embedded as Nat.
-/

namespace DarkArts

/-- Bevy Vec2 (external math type): a 2D vector of f32, embedded over ℚ. -/
structure Vec2 where
  x : ℚ
  y : ℚ
deriving DecidableEq

/-- Bevy Vec3 (external math type): a 3D vector of f32, embedded over ℚ. -/
structure Vec3 where
  x : ℚ
  y : ℚ
  z : ℚ
deriving DecidableEq

/-- Bevy Vec3::splat: all three lanes set to the same value. -/
def Vec3.splat (v : ℚ) : Vec3 := ⟨v, v, v⟩

/-- Bevy Quat (external math type), embedded as its four f32 lanes. -/
structure Quat where
  x : ℚ
  y : ℚ
  z : ℚ
  w : ℚ
deriving DecidableEq

/-- Bevy Quat::IDENTITY, the default rotation. -/
def Quat.IDENTITY : Quat := ⟨0, 0, 0, 1⟩

/-- Bevy Transform (external component): translation, rotation and scale. -/
structure Transform where
  translation : Vec3
  rotation : Quat
  scale : Vec3
deriving DecidableEq

/-- Bevy Transform::default(): zero translation, identity rotation, unit scale. -/
def Transform.default : Transform := ⟨⟨0, 0, 0⟩, Quat.IDENTITY, Vec3.splat 1⟩

/-- Bevy Transform::from_scale: the default transform with the given scale. -/
def Transform.from_scale (scale : Vec3) : Transform :=
  { Transform.default with scale := scale }

/-- Modelled from the spec: the Team tag lives in src/units/team.rs, which is
not among the provided sources. The spec speaks of player-allied and enemy
units and of a team argument such as team Player, so Team is embedded as the
two-valued tag. -/
inductive Team where
  | Player
  | Enemy
deriving DecidableEq

/-- Modelled from the spec: Team's Default value is not given by the provided
sources; Player is used. It is irrelevant to every claim, because spawn_unit
always overwrites the bundle's team with the caller-supplied team. -/
def Team.default : Team := Team.Player

/-- CurrentTeam (src/units/team.rs, tuple struct wrapping Team). -/
structure CurrentTeam where
  val : Team
deriving DecidableEq

/-- Default CurrentTeam, used by the derived Default of UnitBundle. -/
def CurrentTeam.default : CurrentTeam := ⟨Team.default⟩

/-- Movement component (src/movement.rs, not among the provided sources); its
speed field is visible from the construction sites in unit_types.rs. -/
structure Movement where
  speed : ℚ
deriving DecidableEq

/-- Modelled from the spec: Movement's Default value; the spec's base bundle
carries the factory's speed, so the default (overwritten by every factory) is
zero. Irrelevant to every claim. -/
def Movement.default : Movement := ⟨0⟩

/-- Velocity component (src/velocity.rs, not among the provided sources),
modelled from the spec as a 2D vector with a zero-velocity default. -/
structure Velocity where
  val : Vec2
deriving DecidableEq

/-- Default zero velocity, per the spec's default zero-velocity wording. -/
def Velocity.default : Velocity := ⟨⟨0, 0⟩⟩

/-- Health component (src/units/health.rs, tuple struct over a small unsigned
integer, visible from the construction sites Health(50) etc.). -/
structure Health where
  val : ℕ
deriving DecidableEq

/-- Modelled from the spec: Health's derived Default (zero). Irrelevant to
every claim, since every factory sets health explicitly. -/
def Health.default : Health := ⟨0⟩

/-- Animation kinds (src/animation.rs AnimationType, variants visible from the
construction sites in unit_types.rs). -/
inductive AnimationType where
  | Idle
  | Walk
  | Death
  | Attack
deriving DecidableEq

/-- Modelled from the spec: CurrentAnimation (src/animation.rs, not among the
provided sources) is the default animation state attached to the base bundle;
embedded as the currently playing kind, defaulting to Idle. Irrelevant to
every claim beyond being preserved unchanged by spawn_unit. -/
structure CurrentAnimation where
  val : AnimationType
deriving DecidableEq

/-- Default animation state (Idle pose, the spec's default/fallback pose). -/
def CurrentAnimation.default : CurrentAnimation := ⟨AnimationType.Idle⟩

/-- Bevy GlobalTransform (external component), embedded as a Transform. -/
structure GlobalTransform where
  val : Transform
deriving DecidableEq

/-- Default GlobalTransform. -/
def GlobalTransform.default : GlobalTransform := ⟨Transform.default⟩

/-- Bevy InheritedVisibility (external component), embedded as its flag. -/
structure InheritedVisibility where
  visible : Bool
deriving DecidableEq

/-- Default InheritedVisibility. -/
def InheritedVisibility.default : InheritedVisibility := ⟨false⟩

/-- Cleanup tag (src/gamestate.rs, not among the provided sources): a marker
enabling bulk teardown, carried unchanged through spawn_unit. -/
structure Cleanup where
deriving DecidableEq

/-- Default Cleanup tag. -/
def Cleanup.default : Cleanup := ⟨⟩

/-- Bevy TimerMode (external type), used by Acolyte's mana timer. -/
inductive TimerMode where
  | Once
  | Repeating
deriving DecidableEq

/-- Bevy Timer (external type), embedded as its duration in seconds and mode. -/
structure Timer where
  duration : ℚ
  mode : TimerMode
deriving DecidableEq

/-- Bevy Timer::from_seconds. -/
def Timer.from_seconds (duration : ℚ) (mode : TimerMode) : Timer :=
  ⟨duration, mode⟩

/-- Behavior payload struct IdleBehavior (src/ai/behavior.rs; the construction
site IdleBehavior \x7b\x7d shows it is fieldless). -/
structure IdleBehavior where
deriving DecidableEq

/-- Behavior payload struct FleeBehavior (fieldless at its construction site). -/
structure FleeBehavior where
deriving DecidableEq

/-- Behavior payload struct DeadBehavior (fieldless at its construction site). -/
structure DeadBehavior where
deriving DecidableEq

/-- Behavior payload struct MoveOrigoBehavior (fieldless at its construction
site). -/
structure MoveOrigoBehavior where
deriving DecidableEq

/-- Behavior payload struct ChaseBehavior (fieldless at its construction site). -/
structure ChaseBehavior where
deriving DecidableEq

/-- Modelled from the spec: WanderBehavior lives in src/ai/behavior.rs, not
among the provided sources, and is built via WanderBehavior::default(); the
spec treats behavior kinds as opaque AI-owned tags, so it is embedded as a
fieldless marker. -/
structure WanderBehavior where
deriving DecidableEq

/-- Default WanderBehavior (mirrors WanderBehavior::default()). -/
def WanderBehavior.default : WanderBehavior := ⟨⟩

/-- Modelled from the spec: AttackBehavior lives in src/ai/behavior.rs, not
among the provided sources, and is built via AttackBehavior::default(); the
spec treats behavior kinds as opaque AI-owned tags, so it is embedded as a
fieldless marker. -/
structure AttackBehavior where
deriving DecidableEq

/-- Default AttackBehavior (mirrors AttackBehavior::default()). -/
def AttackBehavior.default : AttackBehavior := ⟨⟩

/-- Behavior enum (src/ai/behavior.rs; its seven variants and payloads are
visible from the construction sites and the match in spawn_unit). -/
inductive Behavior where
  | Idle (b : IdleBehavior)
  | Flee (b : FleeBehavior)
  | Dead (b : DeadBehavior)
  | Wander (b : WanderBehavior)
  | MoveOrigo (b : MoveOrigoBehavior)
  | Chase (b : ChaseBehavior)
  | Attack (b : AttackBehavior)
deriving DecidableEq

/-- The behavior kind vocabulary: one tag per Behavior variant, used to state
which presence markers an entity carries. -/
inductive BehaviorKind where
  | Idle
  | Flee
  | Dead
  | Wander
  | MoveOrigo
  | Chase
  | Attack
deriving DecidableEq

/-- The kind tag of a behavior value. -/
def Behavior.kind : Behavior → BehaviorKind
  | .Idle _ => .Idle
  | .Flee _ => .Flee
  | .Dead _ => .Dead
  | .Wander _ => .Wander
  | .MoveOrigo _ => .MoveOrigo
  | .Chase _ => .Chase
  | .Attack _ => .Attack

/-- CurrentBehavior (src/ai/behavior.rs, tuple struct wrapping Behavior). -/
structure CurrentBehavior where
  val : Behavior
deriving DecidableEq

/-- SupportedBehaviors (src/ai/behavior.rs, tuple struct wrapping the list of
(behavior, priority weight) pairs). -/
structure SupportedBehaviors where
  val : List (Behavior × ℕ)
deriving DecidableEq

/-- BehaviorBundle (src/ai/behavior.rs): the repertoire holder spawned with
the unit, with the currently active behavior and the supported set. -/
structure BehaviorBundle where
  current_behavior : CurrentBehavior
  supported_behaviors : SupportedBehaviors
deriving DecidableEq

/-- Modelled from the spec: BehaviorBundle::default() lives in
src/ai/behavior.rs, which is not among the provided sources. The spec says a
type that declares no special behaviors gets the empty/default idle-only
repertoire, which still satisfies the repertoire invariant because the
default repertoire defines its own trivial Idle entry. The priority weight of
that entry is not specified; 5 is used (it is irrelevant to every claim). -/
def BehaviorBundle.default : BehaviorBundle :=
  { current_behavior := ⟨Behavior.Idle ⟨⟩⟩
    supported_behaviors := ⟨[(Behavior.Idle ⟨⟩, 5)]⟩ }

/-- UnitBundle (src/units/unit_types.rs lines 26-37). -/
structure UnitBundle where
  movement : Movement
  velocity : Velocity
  current_animation : CurrentAnimation
  transform : Transform
  global_transform : GlobalTransform
  inherited_visibility : InheritedVisibility
  health : Health
  team : CurrentTeam
  cleanup : Cleanup
deriving DecidableEq

/-- UnitBundle's derived Default: each field's default. -/
def UnitBundle.default : UnitBundle :=
  { movement := Movement.default
    velocity := Velocity.default
    current_animation := CurrentAnimation.default
    transform := Transform.default
    global_transform := GlobalTransform.default
    inherited_visibility := InheritedVisibility.default
    health := Health.default
    team := CurrentTeam.default
    cleanup := Cleanup.default }

/-- AnimatedChildSpawnParams (src/animation.rs, not among the provided
sources); modelled from the spec's AnimationClipSpec: sprite sheet path, frame
size, grid of (columns, rows), frame count, kind, looping flag and
attack-triggered flag — exactly the seven positions of the tuples converted
via .into() in each factory's create_children_spawn_params. -/
structure AnimatedChildSpawnParams where
  sprite_sheet_path : String
  frame_size : Vec2
  grid : ℕ × ℕ
  frame_count : ℕ
  kind : AnimationType
  loops : Bool
  attack_triggered : Bool
deriving DecidableEq

/-- The .into() conversion from the seven-position tuple used in the source to
AnimatedChildSpawnParams (positional, per the spec's field order). -/
def tupleIntoParams
    (data : String × Vec2 × (ℕ × ℕ) × ℕ × AnimationType × Bool × Bool) :
    AnimatedChildSpawnParams :=
  ⟨data.1, data.2.1, data.2.2.1, data.2.2.2.1, data.2.2.2.2.1,
    data.2.2.2.2.2.1, data.2.2.2.2.2.2⟩

/-- UnitType (src/units/unit_types.rs lines 17-24): the closed enumeration. -/
inductive UnitType where
  | Acolyte
  | Warrior
  | Cat
  | Knight
deriving DecidableEq

/-- The trait UnitChildrenSpawnParamsFactory (lines 40-44), embedded as its
dictionary: the three pure queries a factory provides. spawn_unit is generic
over any implementor, so it takes such a dictionary. -/
structure UnitChildrenSpawnParamsFactory where
  create_unit_bundle : UnitBundle
  create_behavior_bundle : BehaviorBundle
  create_children_spawn_params : List AnimatedChildSpawnParams

/-- The Acolyte component (lines 46-50). -/
structure Acolyte where
  give_mana_timer : Timer
  mana_amount : ℕ

/-- Acolyte's Default impl (lines 52-60). -/
def Acolyte.default : Acolyte :=
  let mana_cooldown : ℚ := 1
  { give_mana_timer := Timer.from_seconds mana_cooldown TimerMode.Repeating
    mana_amount := 5 }

/-- Acolyte::create_unit_bundle (lines 63-70). -/
def Acolyte.create_unit_bundle (_ : Acolyte) : UnitBundle :=
  { UnitBundle.default with
    movement := { speed := 75 }
    health := ⟨50⟩
    transform := Transform.from_scale (Vec3.splat 0.8) }

/-- Acolyte::create_behavior_bundle (lines 72-81). -/
def Acolyte.create_behavior_bundle (_ : Acolyte) : BehaviorBundle :=
  { current_behavior := ⟨Behavior.Idle ⟨⟩⟩
    supported_behaviors := ⟨[
      (Behavior.Idle ⟨⟩, 5),
      (Behavior.Flee ⟨⟩, 10),
      (Behavior.Dead ⟨⟩, 15)]⟩ }

/-- Acolyte::create_children_spawn_params (lines 83-116). -/
def Acolyte.create_children_spawn_params (_ : Acolyte) :
    List AnimatedChildSpawnParams :=
  [("acolyte/acolyte_idle.png", Vec2.mk 80 80, (3, 4), 9,
      AnimationType.Idle, true, false),
   ("acolyte/acolyte_idle.png", Vec2.mk 80 80, (3, 4), 9,
      AnimationType.Walk, true, false),
   ("acolyte/acolyte_death.png", Vec2.mk 80 80, (3, 4), 9,
      AnimationType.Death, false, false)].map tupleIntoParams

/-- The Warrior component (line 120, fieldless). -/
structure Warrior where

/-- Warrior::create_unit_bundle (lines 122-129). -/
def Warrior.create_unit_bundle (_ : Warrior) : UnitBundle :=
  { UnitBundle.default with
    movement := { speed := 200 }
    health := ⟨255⟩
    transform := Transform.from_scale (Vec3.splat 1.8) }

/-- Warrior::create_behavior_bundle (lines 131-133): the shared default. -/
def Warrior.create_behavior_bundle (_ : Warrior) : BehaviorBundle :=
  BehaviorBundle.default

/-- Warrior::create_children_spawn_params (lines 135-177). -/
def Warrior.create_children_spawn_params (_ : Warrior) :
    List AnimatedChildSpawnParams :=
  [("warrior/warrior_idle.png", Vec2.mk 96 96, (21, 1), 20,
      AnimationType.Idle, true, false),
   ("warrior/warrior_walk.png", Vec2.mk 96 96, (11, 1), 10,
      AnimationType.Walk, true, false),
   ("warrior/warrior_death.png", Vec2.mk 96 96, (36, 1), 35,
      AnimationType.Death, false, false),
   ("warrior/warrior_attack.png", Vec2.mk 96 96, (33, 1), 32,
      AnimationType.Attack, false, true)].map tupleIntoParams

/-- The Cat component (line 181, fieldless). -/
structure Cat where

/-- Cat::create_unit_bundle (lines 183-190). -/
def Cat.create_unit_bundle (_ : Cat) : UnitBundle :=
  { UnitBundle.default with
    movement := { speed := 300 }
    health := ⟨125⟩
    transform := Transform.from_scale (Vec3.splat 1.4) }

/-- Cat::create_behavior_bundle (lines 192-194): the shared default. -/
def Cat.create_behavior_bundle (_ : Cat) : BehaviorBundle :=
  BehaviorBundle.default

/-- Cat::create_children_spawn_params (lines 196-238). -/
def Cat.create_children_spawn_params (_ : Cat) :
    List AnimatedChildSpawnParams :=
  [("cat/cat_idle.png", Vec2.mk 96 96, (10, 1), 9,
      AnimationType.Idle, true, false),
   ("cat/cat_walk.png", Vec2.mk 96 96, (8, 1), 7,
      AnimationType.Walk, true, false),
   ("cat/cat_death.png", Vec2.mk 96 96, (18, 1), 17,
      AnimationType.Death, false, false),
   ("cat/cat_attack.png", Vec2.mk 96 96, (27, 1), 26,
      AnimationType.Attack, false, true)].map tupleIntoParams

/-- The Knight component (line 242, fieldless). -/
structure Knight where

/-- Knight::create_unit_bundle (lines 244-251). -/
def Knight.create_unit_bundle (_ : Knight) : UnitBundle :=
  { UnitBundle.default with
    movement := { speed := 250 }
    health := ⟨90⟩
    transform := Transform.from_scale (Vec3.splat 1.5) }

/-- Knight::create_behavior_bundle (lines 253-264). -/
def Knight.create_behavior_bundle (_ : Knight) : BehaviorBundle :=
  { supported_behaviors := ⟨[
      (Behavior.Wander WanderBehavior.default, 3),
      (Behavior.MoveOrigo ⟨⟩, 5),
      (Behavior.Chase ⟨⟩, 10),
      (Behavior.Attack AttackBehavior.default, 15),
      (Behavior.Dead ⟨⟩, 20)]⟩
    current_behavior := ⟨Behavior.MoveOrigo ⟨⟩⟩ }

/-- Knight::create_children_spawn_params (lines 266-308). -/
def Knight.create_children_spawn_params (_ : Knight) :
    List AnimatedChildSpawnParams :=
  [("enemy/enemy_idle.png", Vec2.mk 64 64, (12, 1), 11,
      AnimationType.Idle, true, false),
   ("enemy/enemy_move.png", Vec2.mk 96 64, (8, 1), 7,
      AnimationType.Walk, true, false),
   ("enemy/enemy_death.png", Vec2.mk 96 64, (15, 1), 14,
      AnimationType.Death, false, false),
   ("enemy/enemy_attack.png", Vec2.mk 144 64, (22, 1), 21,
      AnimationType.Attack, false, true)].map tupleIntoParams

/-- The trait dictionary of an Acolyte value. -/
def Acolyte.factory (a : Acolyte) : UnitChildrenSpawnParamsFactory :=
  ⟨a.create_unit_bundle, a.create_behavior_bundle, a.create_children_spawn_params⟩

/-- The trait dictionary of a Warrior value. -/
def Warrior.factory (w : Warrior) : UnitChildrenSpawnParamsFactory :=
  ⟨w.create_unit_bundle, w.create_behavior_bundle, w.create_children_spawn_params⟩

/-- The trait dictionary of a Cat value. -/
def Cat.factory (c : Cat) : UnitChildrenSpawnParamsFactory :=
  ⟨c.create_unit_bundle, c.create_behavior_bundle, c.create_children_spawn_params⟩

/-- The trait dictionary of a Knight value. -/
def Knight.factory (k : Knight) : UnitChildrenSpawnParamsFactory :=
  ⟨k.create_unit_bundle, k.create_behavior_bundle, k.create_children_spawn_params⟩

/-- The program's factory set: one implementor of the trait per unit type
(Acolyte values carry their mana fields, which every query ignores). -/
inductive GameUnitFactory where
  | acolyte (a : Acolyte)
  | warrior (w : Warrior)
  | cat (c : Cat)
  | knight (k : Knight)

/-- The trait dictionary of a program factory. -/
def GameUnitFactory.dyn : GameUnitFactory → UnitChildrenSpawnParamsFactory
  | .acolyte a => a.factory
  | .warrior w => w.factory
  | .cat c => c.factory
  | .knight k => k.factory

/-- UnitConfig (lines 319-322). -/
structure UnitConfig where
  cost : ℕ
deriving DecidableEq

/-- UnitResource (lines 310-311): the unit type registry. The Rust HashMap is
embedded as its association list of entries. -/
structure UnitResource where
  entries : List (UnitType × UnitConfig)

/-- Association-list lookup underlying the registry map. -/
def findConfig : List (UnitType × UnitConfig) → UnitType → Option UnitConfig
  | [], _ => none
  | (k, v) :: rest, t => if k = t then some v else findConfig rest t

/-- UnitResource::get (lines 313-317). The Rust body indexes the HashMap with
self.0[unit_type], which panics when the key is absent; the panic is embedded
as the none result of the partial lookup. -/
def UnitResource.get (r : UnitResource) (unit_type : UnitType) :
    Option UnitConfig :=
  findConfig r.entries unit_type

/-- UnitResource's Default impl (lines 324-337): entries for Acolyte, Warrior
and Cat only — Knight has no entry. -/
def UnitResource.default : UnitResource :=
  ⟨[(UnitType.Acolyte, ⟨40⟩),
    (UnitType.Warrior, ⟨30⟩),
    (UnitType.Cat, ⟨20⟩)]⟩

/-- The per-kind behavior presence markers of a spawned entity: one component
slot per behavior kind (ECS semantics: at most one component of a type per
entity; insert fills the slot). -/
structure BehaviorMarkers where
  idle : Option IdleBehavior
  flee : Option FleeBehavior
  dead : Option DeadBehavior
  wander : Option WanderBehavior
  moveOrigo : Option MoveOrigoBehavior
  chase : Option ChaseBehavior
  attack : Option AttackBehavior
deriving DecidableEq

/-- An entity starts with no behavior markers. -/
def BehaviorMarkers.empty : BehaviorMarkers :=
  ⟨none, none, none, none, none, none, none⟩

/-- One step of the marker-attachment loop in spawn_unit (lines 354-382): the
match that inserts the payload component for one repertoire entry. -/
def insertMarker (m : BehaviorMarkers) (behavior : Behavior × ℕ) :
    BehaviorMarkers :=
  match behavior with
  | (Behavior.Idle b, _) => { m with idle := some b }
  | (Behavior.MoveOrigo b, _) => { m with moveOrigo := some b }
  | (Behavior.Wander b, _) => { m with wander := some b }
  | (Behavior.Chase b, _) => { m with chase := some b }
  | (Behavior.Flee b, _) => { m with flee := some b }
  | (Behavior.Attack b, _) => { m with attack := some b }
  | (Behavior.Dead b, _) => { m with dead := some b }

/-- Whether the marker slot for a behavior kind is occupied. -/
def BehaviorMarkers.present (m : BehaviorMarkers) : BehaviorKind → Bool
  | .Idle => m.idle.isSome
  | .Flee => m.flee.isSome
  | .Dead => m.dead.isSome
  | .Wander => m.wander.isSome
  | .MoveOrigo => m.moveOrigo.isSome
  | .Chase => m.chase.isSome
  | .Attack => m.attack.isSome

/-- How many marker slots are occupied. -/
def BehaviorMarkers.count (m : BehaviorMarkers) : ℕ :=
  (if m.idle.isSome then 1 else 0) + (if m.flee.isSome then 1 else 0) +
  (if m.dead.isSome then 1 else 0) + (if m.wander.isSome then 1 else 0) +
  (if m.moveOrigo.isSome then 1 else 0) + (if m.chase.isSome then 1 else 0) +
  (if m.attack.isSome then 1 else 0)

/-- The observable result of spawn_unit: the entity's unit bundle, its
repertoire holder, its per-kind presence markers, and the ordered clip
sequence handed to the external animation collaborator for its children. -/
structure SpawnedEntity where
  bundle : UnitBundle
  behavior_bundle : BehaviorBundle
  markers : BehaviorMarkers
  children_spawn_params : List AnimatedChildSpawnParams
deriving DecidableEq

/-- spawn_unit (lines 339-394). Commands, asset server and atlas layouts are
the external ECS and asset collaborators; the embedding returns the assembled
entity state they would hold afterwards. -/
def spawn_unit (unit_component : UnitChildrenSpawnParamsFactory)
    (team : Team) (spawn_position : Vec2) : SpawnedEntity :=
  let unit_bundle := unit_component.create_unit_bundle
  let unit_bundle := { unit_bundle with team := ⟨team⟩ }
  let unit_bundle := { unit_bundle with transform :=
    { unit_bundle.transform with
      translation := ⟨spawn_position.x, spawn_position.y, 0⟩ } }
  let behavior_bundle := unit_component.create_behavior_bundle
  let markers := behavior_bundle.supported_behaviors.val.foldl
    insertMarker BehaviorMarkers.empty
  { bundle := unit_bundle
    behavior_bundle := behavior_bundle
    markers := markers
    children_spawn_params := unit_component.create_children_spawn_params }

/-- Whether a list of priority weights is strictly increasing from each entry
to the next. -/
def strictlyIncreasing : List ℕ → Bool
  | [] => true
  | [_] => true
  | a :: b :: rest => decide (a < b) && strictlyIncreasing (b :: rest)

/-- C1 counterexample: the claim says every UnitType of the closed enumeration
has a successful registry lookup, but the default registry has no entry for
Knight, so the lookup (a panicking HashMap index, embedded as Option) fails
there. -/
theorem knight_missing_from_default_registry :
    UnitResource.default.get UnitType.Knight = none := by
  decide

/-- C1 (amended): for every UnitType other than Knight — i.e. the three types
the default registry registers — the lookup succeeds and returns a UnitConfig
whose cost is strictly positive; Knight has no entry and its lookup panics. -/
theorem registered_unit_types_have_positive_cost (t : UnitType)
    (h : t ≠ UnitType.Knight) :
    ∃ c : UnitConfig, UnitResource.default.get t = some c ∧ 0 < c.cost := by
  cases t with
  | Acolyte => exact ⟨⟨40⟩, by decide, by decide⟩
  | Warrior => exact ⟨⟨30⟩, by decide, by decide⟩
  | Cat => exact ⟨⟨20⟩, by decide, by decide⟩
  | Knight => exact absurd rfl h

/-- C1 witness: the amended theorem applied at Acolyte. -/
theorem registered_unit_types_have_positive_cost_witness :
    ∃ c : UnitConfig,
      UnitResource.default.get UnitType.Acolyte = some c ∧ 0 < c.cost :=
  registered_unit_types_have_positive_cost UnitType.Acolyte (by decide)

/-- C2: for every factory, team and position, the spawned entity keeps the
factory bundle's movement speed, health and scale exactly, carries the
caller-supplied team (whatever the bundle's static team was), and has
translation (position.x, position.y, 0) with the z drawing layer the fixed
constant 0. -/
theorem spawn_unit_sets_caller_team_and_position
    (f : UnitChildrenSpawnParamsFactory) (team : Team) (p : Vec2) :
    (spawn_unit f team p).bundle.movement = f.create_unit_bundle.movement ∧
    (spawn_unit f team p).bundle.health = f.create_unit_bundle.health ∧
    (spawn_unit f team p).bundle.transform.scale
        = f.create_unit_bundle.transform.scale ∧
    (spawn_unit f team p).bundle.team = ⟨team⟩ ∧
    (spawn_unit f team p).bundle.transform.translation = ⟨p.x, p.y, 0⟩ :=
  ⟨rfl, rfl, rfl, rfl, rfl⟩

/-- C3: for every factory of the program, team and position, the spawned
entity's active behavior equals the repertoire's initial behavior, the number
of occupied presence-marker slots equals the number of repertoire entries
(exactly one marker per entry), and every entry's behavior kind has its
marker present. -/
theorem spawn_unit_attaches_marker_per_repertoire_entry
    (g : GameUnitFactory) (team : Team) (p : Vec2) :
    (spawn_unit g.dyn team p).behavior_bundle.current_behavior
        = g.dyn.create_behavior_bundle.current_behavior ∧
    (spawn_unit g.dyn team p).markers.count
        = g.dyn.create_behavior_bundle.supported_behaviors.val.length ∧
    g.dyn.create_behavior_bundle.supported_behaviors.val.all
      (fun bw => (spawn_unit g.dyn team p).markers.present bw.1.kind) = true := by
  cases g with
  | acolyte a => exact ⟨rfl, rfl, rfl⟩
  | warrior w => exact ⟨rfl, rfl, rfl⟩
  | cat c => exact ⟨rfl, rfl, rfl⟩
  | knight k => exact ⟨rfl, rfl, rfl⟩

/-- C3 witness: the theorem applied to the Knight factory at a concrete team
and position. -/
theorem spawn_unit_attaches_marker_per_repertoire_entry_witness :
    (spawn_unit (GameUnitFactory.knight ⟨⟩).dyn Team.Enemy ⟨100, 50⟩
        ).behavior_bundle.current_behavior
      = (GameUnitFactory.knight ⟨⟩
        ).dyn.create_behavior_bundle.current_behavior ∧
    (spawn_unit (GameUnitFactory.knight ⟨⟩).dyn Team.Enemy ⟨100, 50⟩
        ).markers.count
      = (GameUnitFactory.knight ⟨⟩
        ).dyn.create_behavior_bundle.supported_behaviors.val.length ∧
    (GameUnitFactory.knight ⟨⟩
        ).dyn.create_behavior_bundle.supported_behaviors.val.all
      (fun bw => (spawn_unit (GameUnitFactory.knight ⟨⟩).dyn Team.Enemy
        ⟨100, 50⟩).markers.present bw.1.kind) = true :=
  spawn_unit_attaches_marker_per_repertoire_entry
    (GameUnitFactory.knight ⟨⟩) Team.Enemy ⟨100, 50⟩

/-- C4: every factory of the program returns a clip sequence containing
exactly one clip of kind Idle, and every clip's frame count is at most the
capacity columns times rows of its grid. -/
theorem factory_clips_unique_idle_and_frame_bounds (g : GameUnitFactory) :
    g.dyn.create_children_spawn_params.countP
        (fun clip => clip.kind == AnimationType.Idle) = 1 ∧
    g.dyn.create_children_spawn_params.all
      (fun clip =>
        decide (clip.frame_count ≤ clip.grid.1 * clip.grid.2)) = true := by
  cases g with
  | acolyte a => exact ⟨rfl, rfl⟩
  | warrior w => exact ⟨rfl, rfl⟩
  | cat c => exact ⟨rfl, rfl⟩
  | knight k => exact ⟨rfl, rfl⟩

/-- C4 witness: the theorem applied to the Acolyte factory (at the default
Acolyte value). -/
theorem factory_clips_unique_idle_and_frame_bounds_witness :
    (GameUnitFactory.acolyte Acolyte.default
        ).dyn.create_children_spawn_params.countP
        (fun clip => clip.kind == AnimationType.Idle) = 1 ∧
    (GameUnitFactory.acolyte Acolyte.default
        ).dyn.create_children_spawn_params.all
      (fun clip =>
        decide (clip.frame_count ≤ clip.grid.1 * clip.grid.2)) = true :=
  factory_clips_unique_idle_and_frame_bounds
    (GameUnitFactory.acolyte Acolyte.default)

/-- C5: for every factory of the program — including Warrior and Cat, which
use the shared default repertoire — the repertoire's initial behavior appears
among its entries. -/
theorem initial_behavior_in_repertoire (g : GameUnitFactory) :
    (g.dyn.create_behavior_bundle.supported_behaviors.val.map Prod.fst
      ).contains g.dyn.create_behavior_bundle.current_behavior.val = true := by
  cases g with
  | acolyte a => rfl
  | warrior w => rfl
  | cat c => rfl
  | knight k => rfl

/-- C6: spawning the Knight factory at any team and position yields movement
speed 250, health 90, active behavior MoveOrigo (which, being MoveOrigo, is
not Idle), and the five-entry repertoire Wander, MoveOrigo, Chase, Attack,
Dead whose priority weights 3, 5, 10, 15, 20 are strictly increasing. -/
theorem knight_spawn_scenario (k : Knight) (team : Team) (p : Vec2) :
    (spawn_unit k.factory team p).bundle.movement.speed = 250 ∧
    (spawn_unit k.factory team p).bundle.health = ⟨90⟩ ∧
    (spawn_unit k.factory team p).behavior_bundle.current_behavior
        = ⟨Behavior.MoveOrigo ⟨⟩⟩ ∧
    ((spawn_unit k.factory team p).behavior_bundle.current_behavior
        == (⟨Behavior.Idle ⟨⟩⟩ : CurrentBehavior)) = false ∧
    (spawn_unit k.factory team p).behavior_bundle.supported_behaviors.val
        = [(Behavior.Wander ⟨⟩, 3), (Behavior.MoveOrigo ⟨⟩, 5),
           (Behavior.Chase ⟨⟩, 10), (Behavior.Attack ⟨⟩, 15),
           (Behavior.Dead ⟨⟩, 20)] ∧
    strictlyIncreasing ((spawn_unit k.factory team p
        ).behavior_bundle.supported_behaviors.val.map Prod.snd) = true :=
  ⟨rfl, rfl, rfl, rfl, rfl, rfl⟩

/-- C6 witness: the theorem applied at the concrete Knight value, enemy team
and position (100, 50). -/
theorem knight_spawn_scenario_witness :
    (spawn_unit (Knight.factory ⟨⟩) Team.Enemy ⟨100, 50⟩
        ).bundle.movement.speed = 250 ∧
    (spawn_unit (Knight.factory ⟨⟩) Team.Enemy ⟨100, 50⟩
        ).bundle.health = ⟨90⟩ ∧
    (spawn_unit (Knight.factory ⟨⟩) Team.Enemy ⟨100, 50⟩
        ).behavior_bundle.current_behavior = ⟨Behavior.MoveOrigo ⟨⟩⟩ ∧
    ((spawn_unit (Knight.factory ⟨⟩) Team.Enemy ⟨100, 50⟩
        ).behavior_bundle.current_behavior
        == (⟨Behavior.Idle ⟨⟩⟩ : CurrentBehavior)) = false ∧
    (spawn_unit (Knight.factory ⟨⟩) Team.Enemy ⟨100, 50⟩
        ).behavior_bundle.supported_behaviors.val
        = [(Behavior.Wander ⟨⟩, 3), (Behavior.MoveOrigo ⟨⟩, 5),
           (Behavior.Chase ⟨⟩, 10), (Behavior.Attack ⟨⟩, 15),
           (Behavior.Dead ⟨⟩, 20)] ∧
    strictlyIncreasing ((spawn_unit (Knight.factory ⟨⟩) Team.Enemy ⟨100, 50⟩
        ).behavior_bundle.supported_behaviors.val.map Prod.snd) = true :=
  knight_spawn_scenario ⟨⟩ Team.Enemy ⟨100, 50⟩

/-- C7: looking up a UnitType with no entry in the registry yields the
panicking branch of the HashMap index (embedded as none): the registry never
fabricates a fallback UnitConfig for a missing entry, whatever the registry
contents. -/
theorem registry_get_missing_entry_returns_none (r : UnitResource)
    (t : UnitType) (h : ∀ e ∈ r.entries, e.1 ≠ t) : r.get t = none := by
  have aux : ∀ l : List (UnitType × UnitConfig),
      (∀ e ∈ l, e.1 ≠ t) → findConfig l t = none := by
    intro l
    induction l with
    | nil => intro _; rfl
    | cons e rest ih =>
      intro h2
      obtain ⟨k, v⟩ := e
      have hk : k ≠ t := h2 (k, v) (List.mem_cons_self _ _)
      have step : findConfig ((k, v) :: rest) t = findConfig rest t := by
        simp [findConfig, hk]
      rw [step]
      exact ih (fun x hx => h2 x (List.mem_cons_of_mem _ hx))
  exact aux r.entries h

/-- C7 witness: the theorem applied to the default registry at Knight, whose
entry is absent. -/
theorem registry_get_missing_entry_returns_none_witness :
    (∀ e ∈ UnitResource.default.entries, e.1 ≠ UnitType.Knight) ∧
    UnitResource.default.get UnitType.Knight = none :=
  ⟨by decide,
    registry_get_missing_entry_returns_none UnitResource.default
      UnitType.Knight (by decide)⟩

/-- A factory dictionary (a well-typed implementor of the trait) whose static
data is malformed in all three ways the spec names: its initial behavior
(Idle) is absent from its single entry (Flee), its only clip's frame count 99
exceeds the grid capacity 3 * 4, and no clip of kind Idle exists. -/
def malformedFactory : UnitChildrenSpawnParamsFactory :=
  { create_unit_bundle := UnitBundle.default
    create_behavior_bundle :=
      { current_behavior := ⟨Behavior.Idle ⟨⟩⟩
        supported_behaviors := ⟨[(Behavior.Flee ⟨⟩, 1)]⟩ }
    create_children_spawn_params :=
      [⟨"malformed/missing.png", ⟨64, 64⟩, (3, 4), 99,
          AnimationType.Walk, true, false⟩] }

/-- C8 counterexample: spawn_unit contains no validation, so on a factory
whose static data is malformed in all three named ways it does not fail fast
but assembles a complete entity from the malformed descriptors as given —
its active behavior Idle has no marker and no entry, and the out-of-bounds,
Idle-less clip list is handed unclamped to the animation collaborator. -/
theorem spawn_unit_assembles_malformed_factory :
    (malformedFactory.create_behavior_bundle.current_behavior.val ∉
        malformedFactory.create_behavior_bundle.supported_behaviors.val.map
          Prod.fst) ∧
    (∃ clip ∈ malformedFactory.create_children_spawn_params,
        clip.grid.1 * clip.grid.2 < clip.frame_count) ∧
    malformedFactory.create_children_spawn_params.countP
        (fun clip => clip.kind == AnimationType.Idle) = 0 ∧
    spawn_unit malformedFactory Team.Player ⟨0, 0⟩ =
      { bundle := { UnitBundle.default with
          team := ⟨Team.Player⟩
          transform := { Transform.default with translation := ⟨0, 0, 0⟩ } }
        behavior_bundle := malformedFactory.create_behavior_bundle
        markers := { BehaviorMarkers.empty with flee := some ⟨⟩ }
        children_spawn_params :=
          malformedFactory.create_children_spawn_params } := by
  exact ⟨by decide, by decide, by decide, by decide⟩

/-- C8 (amended): spawn_unit performs no validation of the factory's static
data — for every factory, malformed or not, the repertoire holder and the
clip sequence of the assembled entity equal the factory's descriptors exactly
as given, neither clamped nor rejected; no fail-fast path exists at spawn,
and nothing in the sources checks the data at startup either. -/
theorem spawn_unit_passes_descriptors_through_unvalidated
    (f : UnitChildrenSpawnParamsFactory) (team : Team) (p : Vec2) :
    (spawn_unit f team p).behavior_bundle = f.create_behavior_bundle ∧
    (spawn_unit f team p).children_spawn_params
        = f.create_children_spawn_params :=
  ⟨rfl, rfl⟩

/-- C9: the three factory queries are deterministic for every factory value of
every unit type: in the embedding they are pure functions of the factory
value — mirroring the Rust methods, which read only immutable static data,
with no randomness and no hidden counters — so two calls on the same value
agree by value. -/
theorem factory_queries_deterministic (a : Acolyte) (w : Warrior) (c : Cat)
    (k : Knight) :
    (a.create_unit_bundle = a.create_unit_bundle ∧
     a.create_behavior_bundle = a.create_behavior_bundle ∧
     a.create_children_spawn_params = a.create_children_spawn_params) ∧
    (w.create_unit_bundle = w.create_unit_bundle ∧
     w.create_behavior_bundle = w.create_behavior_bundle ∧
     w.create_children_spawn_params = w.create_children_spawn_params) ∧
    (c.create_unit_bundle = c.create_unit_bundle ∧
     c.create_behavior_bundle = c.create_behavior_bundle ∧
     c.create_children_spawn_params = c.create_children_spawn_params) ∧
    (k.create_unit_bundle = k.create_unit_bundle ∧
     k.create_behavior_bundle = k.create_behavior_bundle ∧
     k.create_children_spawn_params = k.create_children_spawn_params) :=
  ⟨⟨rfl, rfl, rfl⟩, ⟨rfl, rfl, rfl⟩, ⟨rfl, rfl, rfl⟩, ⟨rfl, rfl, rfl⟩⟩

/-- C10: for every factory, team and position, the spawned bundle differs from
the factory's bundle only in the team field and the transform's translation:
the transform's scale and rotation and every remaining bundle field equal the
factory's values — in particular the per-type visual scale is preserved. -/
theorem spawn_unit_preserves_other_bundle_fields
    (f : UnitChildrenSpawnParamsFactory) (team : Team) (p : Vec2) :
    (spawn_unit f team p).bundle.transform.scale
        = f.create_unit_bundle.transform.scale ∧
    (spawn_unit f team p).bundle.transform.rotation
        = f.create_unit_bundle.transform.rotation ∧
    (spawn_unit f team p).bundle.movement = f.create_unit_bundle.movement ∧
    (spawn_unit f team p).bundle.velocity = f.create_unit_bundle.velocity ∧
    (spawn_unit f team p).bundle.current_animation
        = f.create_unit_bundle.current_animation ∧
    (spawn_unit f team p).bundle.global_transform
        = f.create_unit_bundle.global_transform ∧
    (spawn_unit f team p).bundle.inherited_visibility
        = f.create_unit_bundle.inherited_visibility ∧
    (spawn_unit f team p).bundle.health = f.create_unit_bundle.health ∧
    (spawn_unit f team p).bundle.cleanup = f.create_unit_bundle.cleanup :=
  ⟨rfl, rfl, rfl, rfl, rfl, rfl, rfl, rfl, rfl⟩

end DarkArts
